import Mathlib

/-!
Shallow embedding of the sandwich-detector core (src/main.rs, src/types.rs)
and verification of its specification claims.

Modelling conventions:
* `u64` balances and token amounts become `Nat`; signed deltas become `Int`.
* Solana `Pubkey` values are modelled by their base58 `String` form.  The one
  `Pubkey::from_str` call in `find_known_instruction` is applied to the
  resolved signer, which is either the empty string or the string form of an
  actual account key; it therefore fails exactly when the signer is empty,
  and is modelled that way.
* Token amounts in `find_token_accounts` are parsed as `f64` and divided by
  `1e9` in the source, then rescaled by `1e9` at the end.  The embedding keeps
  the raw integer amounts throughout, which is the exact value of that
  computation (the division and multiplication cancel); all comparisons the
  source performs on the scaled values are order-isomorphic to the raw ones.
* Rust `HashMap` iteration order is unspecified and varies from run to run;
  wherever the source iterates a map (`find_token_accounts`), the embedding
  takes the iteration order as an explicit `order : List Nat` parameter,
  constrained to be a permutation of the map's key set.
* Rust `HashMap` insert/remove/get on the tracker state are modelled by an
  association list with overwrite-on-insert semantics; only lookup behaviour
  is observable, and it coincides with the `HashMap`.
-/

/-! ## Constants (src/types.rs) -/

def MIN_JITO_TIP : Nat := 1000

def TARGET_PROGRAM : String := "vpeNALD89BZ4KxNUFjdLmFXBCwtyqBDQ85ouNoax38b"

def WSOL_MINT : String := "So11111111111111111111111111111111111111112"

def JITO_TIP_ADDRESSES : List String :=
  ["96gYZGLnJYVFmbjzopPSU6QiEV5fGqZNyN9nmNhvrZU5",
   "HFqU5x63VTqvQss8hp11i4wVV8bD44PvwucfZ2bU7gRe",
   "Cw8CFyM9FkoMi7K7Crf6HNQqf4uEMzpKw6QNghXLvLkY",
   "ADaUMid9yfUytqMBgopwjb2DTLSokTSzL1zt6iGPaS49",
   "DfXygSm4jCyNCybVYYK6DwvWqjKee8pbDmJGcLWNDXjh",
   "ADuUkR4vqLUMWXxW9gh6D6L8pMSawimctcNZ5pGwDcEt",
   "DttWaMuVvTiduZRnguLF7jNxTgiMBZ1hyAumKUiL2KRL",
   "3AVi9Tg9Uo68tJfuvoKvqKNWKkC5wPdSSdeBnizKZ6jT"]

/-- The discriminator table of `get_instruction_map`, with each hex key given
as its 8 raw bytes (hex encoding is injective, so lookup by byte sequence is
equivalent to lookup by hex string). -/
def instruction_map : List (List Nat × String) :=
  [([0xb3, 0xec, 0xc1, 0xa0, 0x0d, 0xf8, 0xfe, 0x9a], "CreateSandwichV2"),
   ([0x5b, 0xb5, 0x27, 0xf9, 0xec, 0xcb, 0x5e, 0x90], "AutoSwapIn"),
   ([0xb0, 0x24, 0xfa, 0xeb, 0xda, 0x2b, 0xde, 0x25], "AutoSwapOut")]

/-! ## Data model (src/types.rs) -/

structure ClassifiedTransaction where
  signature : String
  signer : String
  block_height : Nat
  block_time : Option Nat
  instruction_type : String
  sandwich_acc : String
  swapper : String
  from_mint : String
  to_mint : String
  from_amount : Nat
  to_amount : Nat
  jito_tip_amount : Nat
  wsol_change : Option Int
  lamport_change : Int
  decimals : Nat
deriving DecidableEq

/-- `ClassifiedTransaction::new` -/
def ClassifiedTransaction.new : ClassifiedTransaction :=
  { signature := "", signer := "", block_height := 0, block_time := none,
    instruction_type := "", sandwich_acc := "", swapper := "", from_mint := "",
    to_mint := "", from_amount := 0, to_amount := 0, jito_tip_amount := 0,
    wsol_change := none, lamport_change := 0, decimals := 9 }

structure SwapInfo where
  swapper : String
  from_mint : String
  to_mint : String
  from_amount : Nat
  to_amount : Nat
  wsol_change : Option Int
  decimals : Nat
deriving DecidableEq

/-- Rust's derived `Ord` on `Option<u64>` restricted to `>` :
`None` is below every `Some`. -/
def optGtB : Option Nat → Option Nat → Bool
  | some x, some y => decide (y < x)
  | some _, none => true
  | none, _ => false

structure Pattern where
  token : String
  attacker : String
  victim : Option String
  transactions : ClassifiedTransaction × ClassifiedTransaction × ClassifiedTransaction
deriving DecidableEq

/-- `Pattern::new` (src/types.rs lines 114-144). -/
def Pattern.new (create_tx swap_in_tx swap_out_tx : ClassifiedTransaction) : Option Pattern :=
  if create_tx.sandwich_acc ≠ swap_in_tx.sandwich_acc ∨
      swap_in_tx.sandwich_acc ≠ swap_out_tx.sandwich_acc then none
  else if optGtB create_tx.block_time swap_in_tx.block_time = true ∨
      optGtB swap_in_tx.block_time swap_out_tx.block_time = true then none
  else if swap_in_tx.from_mint ≠ "" then
    some { token := swap_in_tx.from_mint, attacker := create_tx.signer,
           victim := some swap_in_tx.swapper,
           transactions := (create_tx, swap_in_tx, swap_out_tx) }
  else if swap_out_tx.from_mint ≠ "" then
    some { token := swap_out_tx.from_mint, attacker := create_tx.signer,
           victim := some swap_in_tx.swapper,
           transactions := (create_tx, swap_in_tx, swap_out_tx) }
  else none

/-- `Pattern::is_profitable` -/
def Pattern.is_profitable (p : Pattern) : Bool :=
  if p.transactions.2.1.from_amount = 0 ∨ p.transactions.2.2.from_amount = 0 then false
  else decide (p.transactions.2.1.from_amount < p.transactions.2.2.from_amount)

/-- `Pattern::is_valid` (src/types.rs lines 159-178). -/
def Pattern.is_valid (p : Pattern) : Bool :=
  if p.transactions.1.sandwich_acc ≠ p.transactions.2.1.sandwich_acc ∨
      p.transactions.2.1.sandwich_acc ≠ p.transactions.2.2.sandwich_acc then false
  else if p.transactions.1.block_height ≠ p.transactions.2.1.block_height ∨
      p.transactions.2.1.block_height ≠ p.transactions.2.2.block_height then false
  else if p.transactions.2.1.from_mint ≠ p.transactions.2.1.to_mint ∨
      p.transactions.2.2.from_mint ≠ p.transactions.2.2.to_mint then false
  else true

/-- `Pattern::get_token_profit` (src/types.rs lines 181-189); `i128`
arithmetic on `u64` inputs is exact, modelled in `Int`. -/
def Pattern.get_token_profit (p : Pattern) : Int :=
  if p.is_valid = false then 0
  else (p.transactions.2.2.from_amount : Int) - (p.transactions.2.1.from_amount : Int)

/-! ## PatternTracker (src/types.rs lines 258-304).
The two `HashMap<String, _>` fields are modelled as association lists with
overwrite-on-insert; `lookupA`/`removeA` give exactly the map's
lookup/remove behaviour. -/

def insertA {α : Type} (k : String) (v : α) (l : List (String × α)) : List (String × α) :=
  (k, v) :: l.filter (fun p => p.1 != k)

def lookupA {α : Type} (l : List (String × α)) (k : String) : Option α :=
  (l.find? (fun p => p.1 == k)).map (fun p => p.2)

def removeA {α : Type} (l : List (String × α)) (k : String) : List (String × α) :=
  l.filter (fun p => p.1 != k)

structure PatternTracker where
  open_positions : List (String × ClassifiedTransaction)
  in_progress : List (String × (ClassifiedTransaction × ClassifiedTransaction))
  completed : List Pattern

def PatternTracker.empty : PatternTracker := ⟨[], [], []⟩

/-- `PatternTracker::process_transaction` (src/types.rs lines 273-295).
The Rust `match` on the instruction-type string is an if-chain. -/
def PatternTracker.process_transaction (st : PatternTracker) (tx : ClassifiedTransaction) :
    PatternTracker :=
  if tx.instruction_type = "CreateSandwichV2" then
    { st with open_positions := insertA tx.sandwich_acc tx st.open_positions }
  else if tx.instruction_type = "AutoSwapIn" then
    match lookupA st.open_positions tx.sandwich_acc with
    | some create_tx =>
      { st with open_positions := removeA st.open_positions tx.sandwich_acc,
                in_progress := insertA tx.sandwich_acc (create_tx, tx) st.in_progress }
    | none => st
  else if tx.instruction_type = "AutoSwapOut" then
    match lookupA st.in_progress tx.sandwich_acc with
    | some (create_tx, swap_in_tx) =>
      match Pattern.new create_tx swap_in_tx tx with
      | some p => { st with
                    in_progress := removeA st.in_progress tx.sandwich_acc,
                    completed := st.completed ++ [p] }
      | none => { st with in_progress := removeA st.in_progress tx.sandwich_acc }
    | none => st
  else st

/-- Feeding a block's classified transactions to a fresh tracker in order,
as `analyze_non_vote_transactions` does. -/
def processAll (txs : List ClassifiedTransaction) : PatternTracker :=
  txs.foldl PatternTracker.process_transaction PatternTracker.empty

/-! ## Tip detection (src/main.rs lines 447-464) -/

/-- `is_jito_tip_address` -/
def is_jito_tip_address (addr : String) : Bool :=
  decide (addr ∈ JITO_TIP_ADDRESSES)

/-- `detect_jito_tip` (src/main.rs lines 452-464): enumerate the account
keys, take the saturating balance increase at each index, and accumulate the
increases that are at least `MIN_JITO_TIP` and land on a known tip address.
The source indexes `pre_balances[i]`/`post_balances[i]` without a bounds
check (a panic if the vectors are shorter than the key list); the embedding
uses `getD _ 0` and is exact on the in-bounds inputs the caller must supply. -/
def detect_jito_tip (account_keys : List String) (pre_balances post_balances : List Nat) : Nat :=
  (List.range account_keys.length).foldl
    (fun total_tip i =>
      let diff := post_balances.getD i 0 - pre_balances.getD i 0
      if MIN_JITO_TIP ≤ diff ∧ is_jito_tip_address (account_keys.getD i "") = true then
        total_tip + diff
      else total_tip)
    0

/-! ## Swap inference: `find_token_accounts` (src/main.rs lines 271-411) -/

structure TokenBalance where
  account_index : Nat
  mint : String
  owner : Option String
  amount : Int
deriving DecidableEq

/-- Lookup in the restricted balance map built by
`pre/post_token_balances.iter().filter(relevant).collect::<HashMap<usize,_>>()`:
for a duplicated `account_index` the last entry wins. -/
def balMapGet (bals : List TokenBalance) (relevant : List Nat) (i : Nat) :
    Option TokenBalance :=
  ((bals.filter (fun b => relevant.contains b.account_index)).reverse).find?
    (fun b => b.account_index == i)

/-- The key set of the restricted pre-balance map, as a duplicate-free list;
a run's `HashMap` iteration order is some permutation of it. -/
def preMapKeys (pre : List TokenBalance) (relevant : List Nat) : List Nat :=
  ((pre.filter (fun b => relevant.contains b.account_index)).map
    (fun b => b.account_index)).dedup

/-- State of the first loop of `find_token_accounts`: the per-mint change
vectors (flattened, in iteration order: `other_mint_changes` for mint `m` is
the sublist with first component `m`), the current `primary_mint`, and the
largest absolute change seen so far. -/
structure ChangeScan where
  changes : List (String × Int × Nat)
  primary_mint : String
  max_abs : Nat
deriving DecidableEq

/-- One step of the first loop of `find_token_accounts` at map key `i`. -/
def scanStep (preMap postMap : Nat → Option TokenBalance) (s : ChangeScan) (i : Nat) :
    ChangeScan :=
  match preMap i, postMap i with
  | some pb, some qb =>
    let change : Int := qb.amount - pb.amount
    if change ≠ 0 ∧ pb.mint ≠ WSOL_MINT then
      let s1 :=
        if s.max_abs < change.natAbs then
          { s with max_abs := change.natAbs, primary_mint := pb.mint }
        else s
      { s1 with changes := s1.changes ++ [(pb.mint, change, i)] }
    else s
  | _, _ => s

/-- `find_token_accounts` (src/main.rs lines 271-411).  `order` is the run's
iteration order over the restricted pre-balance map (both `pre_map.iter()`
loops of one run traverse the same in-memory map, hence the same order). -/
def find_token_accounts (order : List Nat) (ix_accounts : List Nat)
    (account_keys : List String) (pre_token_balances post_token_balances : List TokenBalance)
    (instruction_type : String) : Option SwapInfo :=
  let relevant := ix_accounts.filter (fun i => decide (i < account_keys.length))
  let preMap := fun i => balMapGet pre_token_balances relevant i
  let postMap := fun i => balMapGet post_token_balances relevant i
  let scan := order.foldl (scanStep preMap postMap)
    { changes := [], primary_mint := "", max_abs := 0 }
  let wsol_change : Option Int :=
    if scan.primary_mint = "" then none
    else
      let primary_accounts : List String :=
        (scan.changes.filter (fun t => t.1 == scan.primary_mint)).filterMap
          (fun t => (preMap t.2.2).bind (fun b => b.owner))
      match order.find? (fun i =>
        match preMap i, postMap i with
        | some pb, some _ =>
          pb.mint == WSOL_MINT &&
            (match pb.owner with
             | some o => primary_accounts.contains o
             | none => false)
        | _, _ => false) with
      | some i =>
        match preMap i, postMap i with
        | some pb, some qb =>
          if instruction_type = "AutoSwapIn" then some (qb.amount - pb.amount)
          else if instruction_type = "AutoSwapOut" then some (pb.amount - qb.amount)
          else none
        | _, _ => none
      | none => none
  let token_changes := scan.changes.filter (fun t => t.1 == scan.primary_mint)
  let decrease := token_changes.filter (fun t => decide (t.2.1 < 0))
  let increase := token_changes.filter (fun t => !decide (t.2.1 < 0))
  match decrease.head?, increase.head? with
  | some d, some n =>
    let swapper : String :=
      match (preMap d.2.2).bind (fun b => b.owner) with
      | some o => o
      | none => ""
    if swapper = "DKLvbSugkGMf4PBMakfHW9BdvcYj7Y7FRbsiL6v5DRy2" then none
    else some { swapper := swapper, from_mint := scan.primary_mint,
                to_mint := scan.primary_mint, from_amount := d.2.1.natAbs,
                to_amount := n.2.1.toNat, wsol_change := wsol_change, decimals := 9 }
  | _, _ => none

/-! ## Instruction classification: `find_known_instruction`
(src/main.rs lines 108-269) -/

structure CompiledInstruction where
  program_id_index : Nat
  accounts : List Nat
  data : List Nat
deriving DecidableEq

structure TxMeta where
  pre_balances : List Nat
  post_balances : List Nat
  pre_token_balances : List TokenBalance
  post_token_balances : List TokenBalance
deriving DecidableEq

/-- A decoded transaction with its status metadata, as
`find_known_instruction` consumes it (an undecodable transaction yields `[]`
before any of this is read, so the embedding starts from the decoded shape). -/
structure TxInput where
  signatures : List String
  num_required_signatures : Nat
  account_keys : List String
  instructions : List CompiledInstruction
  meta : Option TxMeta
deriving DecidableEq

/-- Discriminator lookup in `instruction_map`. -/
def lookupDisc (d : List Nat) : Option String :=
  (instruction_map.find? (fun p => p.1 == d)).map (fun p => p.2)

/-- Correlation-key resolution (src/main.rs lines 196-221): fixed account
position 2 for `CreateSandwichV2` (the source indexes `account_keys`
unchecked there, a panic for an out-of-range account index; modelled with
`getD _ ""`), and the first in-range candidate of positions 6 then 7 for the
two swap kinds. -/
def resolveSandwichAcc (name : String) (ix : CompiledInstruction)
    (account_keys : List String) : String :=
  if name = "CreateSandwichV2" then
    if 2 < ix.accounts.length then account_keys.getD (ix.accounts.getD 2 0) "" else ""
  else if name = "AutoSwapIn" ∨ name = "AutoSwapOut" then
    match [6, 7].findSome? (fun idx =>
      if idx < ix.accounts.length then
        let account_idx := ix.accounts.getD idx 0
        if account_idx < account_keys.length then some (account_keys.getD account_idx "")
        else none
      else none) with
    | some s => s
    | none => ""
  else ""

/-- The per-transaction context shared by every instruction of one
`find_known_instruction` call. -/
structure ClassifyCtx where
  ordFor : Nat → List Nat
  account_keys : List String
  target_idx : Option Nat
  preTB : List TokenBalance
  postTB : List TokenBalance
  signature : String
  signer : String
  block_height : Nat
  block_time : Option Nat
  jito_tip_amount : Nat
  lamport_change : Int

/-- Building one `ClassifiedTransaction` for a matched instruction
(src/main.rs lines 223-261). -/
def classifyOne (c : ClassifyCtx) (i : Nat) (ix : CompiledInstruction) (name : String) :
    ClassifiedTransaction :=
  let sandwich_acc := resolveSandwichAcc name ix c.account_keys
  match find_token_accounts (c.ordFor i) ix.accounts c.account_keys c.preTB c.postTB name with
  | some swap_info =>
    { signature := c.signature, signer := c.signer, block_height := c.block_height,
      block_time := c.block_time, instruction_type := name, sandwich_acc := sandwich_acc,
      swapper := swap_info.swapper, from_mint := swap_info.from_mint,
      to_mint := swap_info.to_mint, from_amount := swap_info.from_amount,
      to_amount := swap_info.to_amount, jito_tip_amount := c.jito_tip_amount,
      wsol_change := swap_info.wsol_change, lamport_change := c.lamport_change,
      decimals := swap_info.decimals }
  | none =>
    { signature := c.signature, signer := c.signer, block_height := c.block_height,
      block_time := c.block_time, instruction_type := name, sandwich_acc := sandwich_acc,
      swapper := "", from_mint := "", to_mint := "", from_amount := 0, to_amount := 0,
      jito_tip_amount := c.jito_tip_amount, wsol_change := none,
      lamport_change := c.lamport_change, decimals := 9 }

/-- The instruction loop of `find_known_instruction` (src/main.rs lines
177-266): `i` is the instruction's position (feeding the per-instruction map
iteration order), `processed` the set of already-classified discriminators,
`found` the output accumulator. -/
def classifyLoop (c : ClassifyCtx) : Nat → List CompiledInstruction →
    List (List Nat) → List ClassifiedTransaction → List ClassifiedTransaction
  | _, [], _, found => found
  | i, ix :: rest, processed, found =>
    if ix.program_id_index = c.target_idx.getD 0 then
      if ix.data.length < 8 then classifyLoop c (i + 1) rest processed found
      else
        let disc := ix.data.take 8
        if processed.contains disc then classifyLoop c (i + 1) rest processed found
        else
          match lookupDisc disc with
          | some name =>
            classifyLoop c (i + 1) rest (disc :: processed)
              (found ++ [classifyOne c i ix name])
          | none => classifyLoop c (i + 1) rest processed found
    else classifyLoop c (i + 1) rest processed found

/-- `find_known_instruction` (src/main.rs lines 108-269).  `ordFor i` is the
run's iteration order over the restricted pre-balance map built for the
`i`-th instruction. -/
def find_known_instruction (ordFor : Nat → List Nat) (tx : TxInput)
    (block_height : Nat) (block_time : Option Nat) : List ClassifiedTransaction :=
  let signature := tx.signatures.headD ""
  let signer :=
    if 0 < tx.num_required_signatures ∧
        tx.num_required_signatures ≤ tx.account_keys.length then
      tx.account_keys.headD ""
    else ""
  if signer = "" then []
  else
    let target_idx := tx.account_keys.findIdx? (fun key => key == TARGET_PROGRAM)
    let preTB := match tx.meta with
      | some m => m.pre_token_balances
      | none => []
    let postTB := match tx.meta with
      | some m => m.post_token_balances
      | none => []
    let jito := match tx.meta with
      | some m => detect_jito_tip tx.account_keys m.pre_balances m.post_balances
      | none => 0
    let lamport : Int :=
      match tx.account_keys.findIdx? (fun key => key == signer), tx.meta with
      | some signer_index, some m =>
        if signer_index < m.pre_balances.length ∧ signer_index < m.post_balances.length then
          (m.post_balances.getD signer_index 0 : Int) - (m.pre_balances.getD signer_index 0 : Int)
        else 0
      | _, _ => 0
    classifyLoop
      { ordFor := ordFor, account_keys := tx.account_keys, target_idx := target_idx,
        preTB := preTB, postTB := postTB, signature := signature, signer := signer,
        block_height := block_height, block_time := block_time,
        jito_tip_amount := jito, lamport_change := lamport }
      0 tx.instructions [] []

/-! ## Claim fixtures: concrete inputs used by the claim theorems below -/

/-- Fixture helper: a default transaction with the given instruction type and
correlation key. -/
def mkTx (ty key : String) : ClassifiedTransaction :=
  { ClassifiedTransaction.new with instruction_type := ty, sandwich_acc := key }

-- fixtures for Claim C7

def c7c : ClassifiedTransaction := { mkTx "CreateSandwichV2" "K" with block_time := some 5 }

def c7si : ClassifiedTransaction :=
  { mkTx "AutoSwapIn" "K" with block_time := some 3, from_mint := "M" }

def c7so : ClassifiedTransaction := { mkTx "AutoSwapOut" "K" with block_time := some 9 }

-- fixtures for Claim C8

def c8pCreate : ClassifiedTransaction := { mkTx "CreateSandwichV2" "K" with block_height := 4 }

def c8pIn : ClassifiedTransaction :=
  { mkTx "AutoSwapIn" "K" with
    block_height := 4, from_mint := "M", to_mint := "M", from_amount := 100 }

def c8pOut : ClassifiedTransaction :=
  { mkTx "AutoSwapOut" "K" with
    block_height := 4, from_mint := "M", to_mint := "M", from_amount := 150 }

def c8p : Pattern :=
  { token := "M", attacker := "att", victim := some "vic",
    transactions := (c8pCreate, c8pIn, c8pOut) }

-- fixtures for Claim C10

def c10c : ClassifiedTransaction := mkTx "CreateSandwichV2" "K"

def c10si : ClassifiedTransaction :=
  { mkTx "AutoSwapIn" "K" with from_mint := "M", swapper := "victimAcc" }

def c10so : ClassifiedTransaction := mkTx "AutoSwapOut" "K"

def c10p : Pattern :=
  { token := "M", attacker := "", victim := some "victimAcc",
    transactions := (c10c, c10si, c10so) }

-- fixtures for Claim C2

def c2c : ClassifiedTransaction := mkTx "CreateSandwichV2" "K"

def c2so : ClassifiedTransaction := mkTx "AutoSwapOut" "K"

-- fixtures for Claim C3

def c3e1 : ClassifiedTransaction := mkTx "CreateSandwichV2" ""

def c3e2 : ClassifiedTransaction := { mkTx "AutoSwapIn" "" with from_mint := "M" }

def c3e3 : ClassifiedTransaction := mkTx "AutoSwapOut" ""

-- fixtures for Claim C6

def c6h1 : ClassifiedTransaction :=
  { mkTx "CreateSandwichV2" "K" with block_height := 1, block_time := some 10 }

def c6h2 : ClassifiedTransaction :=
  { mkTx "AutoSwapIn" "K" with block_height := 2, block_time := some 11, from_mint := "M" }

def c6h3 : ClassifiedTransaction :=
  { mkTx "AutoSwapOut" "K" with block_height := 3, block_time := some 12 }

/-- Correlation-key equality across the three legs of a pattern. -/
def patKeysEq (p : Pattern) : Prop :=
  p.transactions.1.sandwich_acc = p.transactions.2.1.sandwich_acc ∧
  p.transactions.2.1.sandwich_acc = p.transactions.2.2.sandwich_acc

def c6w1 : ClassifiedTransaction :=
  { mkTx "CreateSandwichV2" "K" with block_height := 7, block_time := some 1 }

def c6w2 : ClassifiedTransaction :=
  { mkTx "AutoSwapIn" "K" with block_height := 7, block_time := some 2, from_mint := "M" }

def c6w3 : ClassifiedTransaction :=
  { mkTx "AutoSwapOut" "K" with block_height := 7, block_time := some 3 }

def c6wp : Pattern :=
  { token := "M", attacker := "", victim := some "",
    transactions := (c6w1, c6w2, c6w3) }

-- fixtures for Claim C9

/-- Spec-side formula for C9 (a second definition following the claim's
words, to compare against the source's `detect_jito_tip`): the sum over
account indices of the saturating balance increase, restricted to indices
whose increase is at least 1000 and whose address is one of the 8 known
relay-tip addresses. -/
def jitoTipSpec (account_keys : List String) (pre post : List Nat) : Nat :=
  ((List.range account_keys.length).map (fun i =>
    if 1000 ≤ post.getD i 0 - pre.getD i 0 ∧ account_keys.getD i "" ∈ JITO_TIP_ADDRESSES then
      post.getD i 0 - pre.getD i 0
    else 0)).sum

def c9keys : List String :=
  ["96gYZGLnJYVFmbjzopPSU6QiEV5fGqZNyN9nmNhvrZU5", "notatip",
   "HFqU5x63VTqvQss8hp11i4wVV8bD44PvwucfZ2bU7gRe",
   "Cw8CFyM9FkoMi7K7Crf6HNQqf4uEMzpKw6QNghXLvLkY"]

def c9pre : List Nat := [0, 0, 0, 1000]

def c9post : List Nat := [1000, 5000, 999, 0]

-- fixtures for Claim C4

def c4tx : TxInput :=
  { signatures := ["sig"], num_required_signatures := 0,
    account_keys := ["payerKey", TARGET_PROGRAM],
    instructions := [{ program_id_index := 1, accounts := [],
                       data := [0x5b, 0xb5, 0x27, 0xf9, 0xec, 0xcb, 0x5e, 0x90] }],
    meta := none }

def c4wtx : TxInput :=
  { signatures := [], num_required_signatures := 0, account_keys := ["A"],
    instructions := [], meta := none }

-- fixtures for Claim C5

def c5tx : TxInput :=
  { signatures := ["sig"], num_required_signatures := 1,
    account_keys := ["signerKey"],
    instructions := [{ program_id_index := 0, accounts := [],
                       data := [0xb3, 0xec, 0xc1, 0xa0, 0x0d, 0xf8, 0xfe, 0x9a] }],
    meta := none }

/-- A mixed transaction: the target program sits at index 1; the first
instruction carries a known discriminator (`AutoSwapIn`) but a non-matching
`program_id_index` of 0, the second matches index 1 with the
`CreateSandwichV2` discriminator. -/
def c5wtx : TxInput :=
  { signatures := ["s"], num_required_signatures := 1,
    account_keys := ["payer", TARGET_PROGRAM],
    instructions :=
      [{ program_id_index := 0, accounts := [],
         data := [0x5b, 0xb5, 0x27, 0xf9, 0xec, 0xcb, 0x5e, 0x90] },
       { program_id_index := 1, accounts := [],
         data := [0xb3, 0xec, 0xc1, 0xa0, 0x0d, 0xf8, 0xfe, 0x9a] }],
    meta := none }

-- fixtures for Claim C1

def c1keys : List String := ["payerK", "k1", "k2", TARGET_PROGRAM]

def c1ix : CompiledInstruction :=
  { program_id_index := 3, accounts := [0, 1, 2],
    data := [0x5b, 0xb5, 0x27, 0xf9, 0xec, 0xcb, 0x5e, 0x90] }

def c1pre : List TokenBalance :=
  [{ account_index := 0, mint := "mintM", owner := some "carol", amount := 0 },
   { account_index := 1, mint := "mintM", owner := some "alice", amount := 100 },
   { account_index := 2, mint := "mintM", owner := some "bob", amount := 100 }]

def c1post : List TokenBalance :=
  [{ account_index := 0, mint := "mintM", owner := some "carol", amount := 100 },
   { account_index := 1, mint := "mintM", owner := some "alice", amount := 50 },
   { account_index := 2, mint := "mintM", owner := some "bob", amount := 50 }]

def c1tx : TxInput :=
  { signatures := ["s"], num_required_signatures := 1, account_keys := c1keys,
    instructions := [c1ix],
    meta := some { pre_balances := [0, 0, 0, 0], post_balances := [0, 0, 0, 0],
                   pre_token_balances := c1pre, post_token_balances := c1post } }

def c1wpre : List TokenBalance :=
  [{ account_index := 0, mint := "M", owner := some "own", amount := 1 }]

def c1wpost : List TokenBalance :=
  [{ account_index := 0, mint := "M", owner := some "own", amount := 2 }]

/-! ## Claim theorems -/

/-! ### Claim C7 -/

/-- C7: for every triple of classified transactions, `Pattern::new` returns
no Pattern whenever `create.block_time > swap_in.block_time` or
`swap_in.block_time > swap_out.block_time` (Rust `>` on `Option<u64>`). -/
theorem c7_time_ordering_blocks_construction (c si so : ClassifiedTransaction)
    (h : optGtB c.block_time si.block_time = true ∨
      optGtB si.block_time so.block_time = true) :
    Pattern.new c si so = none := by
  unfold Pattern.new
  by_cases hk : c.sandwich_acc ≠ si.sandwich_acc ∨ si.sandwich_acc ≠ so.sandwich_acc
  · rw [if_pos hk]
  · rw [if_neg hk, if_pos h]

/-- C7 witness: a concrete out-of-order triple is rejected. -/
theorem c7_witness :
    (optGtB c7c.block_time c7si.block_time = true ∨
      optGtB c7si.block_time c7so.block_time = true) ∧
    Pattern.new c7c c7si c7so = none :=
  ⟨Or.inl (by decide),
   c7_time_ordering_blocks_construction c7c c7si c7so (Or.inl (by decide))⟩

/-! ### Claim C8 -/

/-- C8: `get_token_profit` equals `swap_out.from_amount - swap_in.from_amount`
as a signed integer when `is_valid` holds and `0` otherwise, and for `u64`
inputs the difference lies strictly inside the `i128` range (no overflow). -/
theorem c8_token_profit (p : Pattern) :
    (p.is_valid = true →
      p.get_token_profit =
        (p.transactions.2.2.from_amount : Int) - (p.transactions.2.1.from_amount : Int)) ∧
    (p.is_valid = false → p.get_token_profit = 0) ∧
    (p.transactions.2.1.from_amount < 2 ^ 64 → p.transactions.2.2.from_amount < 2 ^ 64 →
      -(2 ^ 127) ≤ p.get_token_profit ∧ p.get_token_profit < 2 ^ 127) := by
  have e64 : (2 : Nat) ^ 64 = 18446744073709551616 := by norm_num
  have e127 : (2 : Int) ^ 127 = 170141183460469231731687303715884105728 := by norm_num
  cases hv : p.is_valid with
  | false =>
    have he : p.get_token_profit = 0 := by simp [Pattern.get_token_profit, hv]
    refine ⟨by simp [hv], fun _ => he, ?_⟩
    intro h1 h2
    rw [he]
    constructor <;> norm_num
  | true =>
    have he : p.get_token_profit =
        (p.transactions.2.2.from_amount : Int) - (p.transactions.2.1.from_amount : Int) := by
      simp [Pattern.get_token_profit, hv]
    refine ⟨fun _ => he, by simp [hv], ?_⟩
    intro h1 h2
    rw [he, e127]
    rw [e64] at h1 h2
    constructor <;> omega

/-- C8 witness: on a concrete valid pattern the profit is the signed
difference of the two swap amounts. -/
theorem c8_witness :
    c8p.is_valid = true ∧
    c8p.get_token_profit =
      (c8p.transactions.2.2.from_amount : Int) - (c8p.transactions.2.1.from_amount : Int) :=
  ⟨by decide, (c8_token_profit c8p).1 (by decide)⟩

/-! ### Claim C10 -/

/-- C10: whenever `Pattern::new` succeeds, the `victim` field is `Some` of
the SwapIn leg's swapper; the degraded `victim = None` case is never
produced by construction. -/
theorem c10_victim_always_populated (c si so : ClassifiedTransaction) (p : Pattern)
    (h : Pattern.new c si so = some p) : p.victim = some si.swapper := by
  unfold Pattern.new at h
  split at h
  · simp at h
  · split at h
    · simp at h
    · split at h
      · simp only [Option.some.injEq] at h
        subst h
        rfl
      · split at h
        · simp only [Option.some.injEq] at h
          subst h
          rfl
        · simp at h

/-- C10 witness: a concrete successful construction carries the SwapIn
swapper as victim. -/
theorem c10_witness : c10p.victim = some c10si.swapper :=
  c10_victim_always_populated c10c c10si c10so c10p (by decide)

/-! ### Claim C2 -/

/-- C2 is false as stated: after Create(K) then SwapOut(K) with no SwapIn,
no Pattern completes and the pending map is empty for K, but the open map
still holds K's Create transaction (the claim asserts it holds no entry). -/
theorem c2_counterexample :
    (processAll [c2c, c2so]).completed = [] ∧
    lookupA (processAll [c2c, c2so]).in_progress "K" = none ∧
    lookupA (processAll [c2c, c2so]).open_positions "K" = some c2c := by decide

/-- C2 (amended): starting from the empty tracker, a Create with key K
followed by a SwapOut with key K and no intervening SwapIn yields no
completed Pattern and no pending entry for K, but the open map still maps K
to the Create transaction. -/
theorem c2_create_then_swapout (c so : ClassifiedTransaction)
    (hc : c.instruction_type = "CreateSandwichV2")
    (hso : so.instruction_type = "AutoSwapOut")
    (hk : so.sandwich_acc = c.sandwich_acc) :
    (PatternTracker.process_transaction
      (PatternTracker.process_transaction PatternTracker.empty c) so).completed = [] ∧
    lookupA (PatternTracker.process_transaction
      (PatternTracker.process_transaction PatternTracker.empty c) so).in_progress
      c.sandwich_acc = none ∧
    lookupA (PatternTracker.process_transaction
      (PatternTracker.process_transaction PatternTracker.empty c) so).open_positions
      c.sandwich_acc = some c := by
  have h1 : PatternTracker.process_transaction PatternTracker.empty c =
      ⟨[(c.sandwich_acc, c)], [], []⟩ := by
    simp [PatternTracker.process_transaction, hc, PatternTracker.empty, insertA]
  have hnc : so.instruction_type ≠ "CreateSandwichV2" := by rw [hso]; decide
  have hni : so.instruction_type ≠ "AutoSwapIn" := by rw [hso]; decide
  rw [h1]
  simp [PatternTracker.process_transaction, hso, hnc, hni, lookupA, hk]

/-- C2 witness: the amended statement at the concrete Create/SwapOut pair. -/
theorem c2_witness :
    (PatternTracker.process_transaction
      (PatternTracker.process_transaction PatternTracker.empty c2c) c2so).completed = [] ∧
    lookupA (PatternTracker.process_transaction
      (PatternTracker.process_transaction PatternTracker.empty c2c) c2so).in_progress
      c2c.sandwich_acc = none ∧
    lookupA (PatternTracker.process_transaction
      (PatternTracker.process_transaction PatternTracker.empty c2c) c2so).open_positions
      c2c.sandwich_acc = some c2c :=
  c2_create_then_swapout c2c c2so (by decide) (by decide) (by decide)

/-! ### Claim C3 -/

/-- C3: evaluation at the failing input.  The tracker pairs three
transactions whose correlation keys are all the empty string and pushes a
completed Pattern, so an empty key does match across transactions, contrary
to the claim (and to the spec's "never matches" requirement). -/
theorem c3_empty_key_completes :
    (processAll [c3e1, c3e2, c3e3]).completed.map
      (fun p => p.transactions.1.sandwich_acc) = [""] := by decide

/-! ### Claim C6 -/

/-- C6 is false as stated: the tracker completes a Pattern whose three legs
carry block heights 1, 2 and 3 — block-height equality is not enforced at
construction time. -/
theorem c6_counterexample :
    (processAll [c6h1, c6h2, c6h3]).completed.map
      (fun p => (p.transactions.1.block_height, p.transactions.2.1.block_height,
        p.transactions.2.2.block_height)) = [(1, 2, 3)] := by decide

lemma pattern_new_keysEq (c si so : ClassifiedTransaction) (p : Pattern)
    (h : Pattern.new c si so = some p) : patKeysEq p := by
  unfold Pattern.new at h
  by_cases hk : c.sandwich_acc ≠ si.sandwich_acc ∨ si.sandwich_acc ≠ so.sandwich_acc
  · rw [if_pos hk] at h
    simp at h
  · push_neg at hk
    rw [if_neg (by push_neg; exact hk)] at h
    split at h
    · simp at h
    · split at h
      · simp only [Option.some.injEq] at h
        subst h
        exact ⟨hk.1, hk.2⟩
      · split at h
        · simp only [Option.some.injEq] at h
          subst h
          exact ⟨hk.1, hk.2⟩
        · simp at h

lemma process_transaction_keysEq (st : PatternTracker) (tx : ClassifiedTransaction)
    (h : ∀ p ∈ st.completed, patKeysEq p) :
    ∀ p ∈ (st.process_transaction tx).completed, patKeysEq p := by
  unfold PatternTracker.process_transaction
  split
  · exact h
  · split
    · split
      · exact h
      · exact h
    · split
      · split
        · split
          · rename_i heq
            intro p hp
            rcases List.mem_append.mp hp with hp | hp
            · exact h p hp
            · rw [List.mem_singleton.mp hp]
              exact pattern_new_keysEq _ _ _ _ heq
          · exact h
        · exact h
      · exact h

lemma foldl_process_keysEq (txs : List ClassifiedTransaction) :
    ∀ st, (∀ p ∈ st.completed, patKeysEq p) →
      ∀ p ∈ (txs.foldl PatternTracker.process_transaction st).completed, patKeysEq p := by
  induction txs with
  | nil => exact fun st h => h
  | cons tx rest ih =>
    intro st h
    exact ih _ (process_transaction_keysEq st tx h)

/-- C6 (amended): every Pattern the tracker completes has all three legs'
correlation keys equal — this is enforced at `Pattern::new`.  Block-height
equality is NOT enforced at construction (it is only re-checked by
`is_valid`), so a completed Pattern may carry differing block heights. -/
theorem c6_completed_keys_equal (txs : List ClassifiedTransaction) :
    ∀ p ∈ (processAll txs).completed, patKeysEq p :=
  foldl_process_keysEq txs PatternTracker.empty (by intro p hp; simp [PatternTracker.empty] at hp)

/-- C6 witness: a concretely completed pattern has its keys equal. -/
theorem c6_witness : patKeysEq c6wp :=
  c6_completed_keys_equal [c6w1, c6w2, c6w3] c6wp (by decide)

/-! ### Claim C9 -/

lemma foldl_tip_sum (p : Nat → Prop) [DecidablePred p] (g : Nat → Nat) :
    ∀ (l : List Nat) (acc : Nat),
      l.foldl (fun t i => if p i then t + g i else t) acc =
        acc + (l.map (fun i => if p i then g i else 0)).sum := by
  intro l
  induction l with
  | nil => intro acc; simp
  | cons x xs ih =>
    intro acc
    simp only [List.foldl_cons, List.map_cons, List.sum_cons]
    rw [ih]
    by_cases hx : p x
    · rw [if_pos hx, if_pos hx]
      omega
    · rw [if_neg hx, if_neg hx]
      omega

/-- C9: under the precondition that both balance vectors cover the account
keys, `detect_jito_tip` returns exactly the restricted sum of saturating
balance increases over known tip addresses (threshold 1000 inclusive; a
decrease saturates to 0). -/
theorem c9_detect_jito_tip_sum (account_keys : List String) (pre post : List Nat)
    (hpre : account_keys.length ≤ pre.length) (hpost : account_keys.length ≤ post.length) :
    detect_jito_tip account_keys pre post = jitoTipSpec account_keys pre post := by
  unfold detect_jito_tip jitoTipSpec
  rw [foldl_tip_sum
    (fun i => MIN_JITO_TIP ≤ post.getD i 0 - pre.getD i 0 ∧
      is_jito_tip_address (account_keys.getD i "") = true)
    (fun i => post.getD i 0 - pre.getD i 0)]
  simp [MIN_JITO_TIP, is_jito_tip_address]

/-- C9 witness: on a concrete block, a delta of exactly 1000 on a tip
address is counted, a delta of 999 on a tip address is not, a decrease on a
tip address contributes 0, and a large delta on a non-tip address is
ignored — the total is 1000. -/
theorem c9_witness :
    c9keys.length ≤ c9pre.length ∧ c9keys.length ≤ c9post.length ∧
    detect_jito_tip c9keys c9pre c9post = jitoTipSpec c9keys c9pre c9post ∧
    detect_jito_tip c9keys c9pre c9post = 1000 :=
  ⟨by decide, by decide,
   c9_detect_jito_tip_sum c9keys c9pre c9post (by decide) (by decide), by decide⟩

/-! ### Claim C4 -/

/-- C4 is false as stated: a transaction that declares zero required signers
yields NO classified results at all (the empty signer fails pubkey parsing
and `find_known_instruction` returns early), even though the very same
transaction is classified once the signer is resolvable. -/
theorem c4_counterexample :
    find_known_instruction (fun _ => []) c4tx 1 none = [] ∧
    (find_known_instruction (fun _ => [])
      { c4tx with num_required_signatures := 1 } 1 none).length = 1 := by
  constructor
  · decide
  · decide

/-- C4 (amended): when the signer cannot be resolved (zero required signers
or an empty account-key list), classification raises no error but emits zero
classified transactions — the whole transaction is skipped, rather than
classified with an empty signer as the claim states. -/
theorem c4_unresolvable_signer_suppresses (ordFor : Nat → List Nat) (tx : TxInput)
    (block_height : Nat) (block_time : Option Nat)
    (h : tx.num_required_signatures = 0 ∨ tx.account_keys = []) :
    find_known_instruction ordFor tx block_height block_time = [] := by
  have hs : ¬ (0 < tx.num_required_signatures ∧
      tx.num_required_signatures ≤ tx.account_keys.length) := by
    rcases h with h | h
    · intro hc
      rcases hc with ⟨h1, _⟩
      omega
    · intro hc
      rcases hc with ⟨h1, h2⟩
      rw [h] at h2
      simp at h2
      omega
  simp [find_known_instruction, hs]

/-- C4 witness: the amended statement at a concrete zero-signer input. -/
theorem c4_witness : find_known_instruction (fun _ => []) c4wtx 0 none = [] :=
  c4_unresolvable_signer_suppresses (fun _ => []) c4wtx 0 none (Or.inl rfl)

/-! ### Claim C5 -/

/-- C5 is false as stated: the target program is absent from the account
keys (`unwrap_or_default` turns the missing index into 0), yet the
instruction with `program_id_index = 0` is classified. -/
theorem c5_counterexample :
    TARGET_PROGRAM ∉ c5tx.account_keys ∧
    (find_known_instruction (fun _ => []) c5tx 1 none).map
      (fun t => t.instruction_type) = ["CreateSandwichV2"] := by
  constructor
  · decide
  · decide

lemma classifyOne_type (c : ClassifyCtx) (i : Nat) (ix : CompiledInstruction) (name : String) :
    (classifyOne c i ix name).instruction_type = name := by
  unfold classifyOne
  split <;> rfl

lemma classifyLoop_emits_from_matching (c : ClassifyCtx) (master : List CompiledInstruction) :
    ∀ (l : List CompiledInstruction) (i : Nat) (processed : List (List Nat))
      (found : List ClassifiedTransaction),
      (∀ ix ∈ l, ix ∈ master) →
      (∀ p ∈ found, ∃ ix, ix ∈ master ∧ ix.program_id_index = c.target_idx.getD 0 ∧
        8 ≤ ix.data.length ∧ lookupDisc (ix.data.take 8) = some p.instruction_type) →
      ∀ p ∈ classifyLoop c i l processed found,
        ∃ ix, ix ∈ master ∧ ix.program_id_index = c.target_idx.getD 0 ∧
          8 ≤ ix.data.length ∧ lookupDisc (ix.data.take 8) = some p.instruction_type := by
  intro l
  induction l with
  | nil =>
    intro i pr fd _ hfd
    exact hfd
  | cons ix rest ih =>
    intro i pr fd hsub hfd
    have hmem : ix ∈ master := hsub ix (by simp)
    have hsub' : ∀ j ∈ rest, j ∈ master := fun j hj => hsub j (by simp [hj])
    simp only [classifyLoop]
    by_cases hgate : ix.program_id_index = c.target_idx.getD 0
    · rw [if_pos hgate]
      by_cases hlen : ix.data.length < 8
      · rw [if_pos hlen]
        exact ih (i + 1) pr fd hsub' hfd
      · rw [if_neg hlen]
        by_cases hproc : pr.contains (ix.data.take 8) = true
        · rw [if_pos hproc]
          exact ih (i + 1) pr fd hsub' hfd
        · rw [if_neg hproc]
          rcases hdisc : lookupDisc (ix.data.take 8) with _ | name
          · simp only [hdisc]
            exact ih (i + 1) pr fd hsub' hfd
          · simp only [hdisc]
            refine ih (i + 1) _ _ hsub' ?_
            intro q hq
            rcases List.mem_append.mp hq with hq | hq
            · exact hfd q hq
            · rw [List.mem_singleton.mp hq, classifyOne_type]
              exact ⟨ix, hmem, hgate, by omega, hdisc⟩
    · rw [if_neg hgate]
      exact ih (i + 1) pr fd hsub' hfd

/-- C5 (amended): when the target program IS present among the account keys,
at index `t`, classification only emits for instructions whose
`program_id_index` equals `t`: every emitted `ClassifiedTransaction` arises
from an instruction of the transaction whose `program_id_index` is `t`, with
at least 8 data bytes and a known discriminator naming its instruction type;
instructions with any other `program_id_index` never contribute.  (When the
target program is absent, `unwrap_or_default` makes index 0 act as the match
target instead, refuting the claim's second half.) -/
theorem c5_only_matching_instructions_emit (ordFor : Nat → List Nat) (tx : TxInput)
    (block_height : Nat) (block_time : Option Nat) (t : Nat)
    (htarget : tx.account_keys.findIdx? (fun key => key == TARGET_PROGRAM) = some t) :
    ∀ p ∈ find_known_instruction ordFor tx block_height block_time,
      ∃ ix, ix ∈ tx.instructions ∧ ix.program_id_index = t ∧
        8 ≤ ix.data.length ∧ lookupDisc (ix.data.take 8) = some p.instruction_type := by
  simp only [find_known_instruction]
  by_cases hsig : (if 0 < tx.num_required_signatures ∧
      tx.num_required_signatures ≤ tx.account_keys.length then
        tx.account_keys.headD "" else "") = ""
  · rw [if_pos hsig]
    intro p hp
    simp at hp
  · rw [if_neg hsig]
    intro p hp
    have hprov := classifyLoop_emits_from_matching _ tx.instructions tx.instructions 0 [] []
      (fun ix h => h) (by intro q hq; simp at hq) p hp
    simpa only [htarget, Option.getD_some] using hprov

/-- C5 witness: on a mixed transaction — a known-discriminator instruction
at non-matching `program_id_index` 0 next to a matching one at the target
index 1 — exactly one classification is emitted, and it traces to the
matching instruction. -/
theorem c5_witness :
    (find_known_instruction (fun _ => []) c5wtx 2 none).length = 1 ∧
    (∃ ix, ix ∈ c5wtx.instructions ∧ ix.program_id_index = 1 ∧ 8 ≤ ix.data.length ∧
      lookupDisc (ix.data.take 8) =
        some ((find_known_instruction (fun _ => []) c5wtx 2 none).headD
          ClassifiedTransaction.new).instruction_type) :=
  ⟨by decide,
   c5_only_matching_instructions_emit (fun _ => []) c5wtx 2 none 1 (by decide)
     ((find_known_instruction (fun _ => []) c5wtx 2 none).headD ClassifiedTransaction.new)
     (by decide)⟩

/-! ### Claim C1 -/

/-- C1 is false as stated: both `[0, 1, 2]` and `[0, 2, 1]` are valid
iteration orders over the restricted pre-balance map (permutations of its
key set), yet the two classification runs produce different
`ClassifiedTransaction` sequences — the first-decrease leg, and with it the
inferred swapper, differs.  Rust's `HashMap` order is not fixed across runs,
so repeated runs are not guaranteed to agree.  The fixture's native balance
vectors cover all four account keys, so the source's unchecked
`pre/post_balances[i]` indexing in `detect_jito_tip` stays in bounds. -/
theorem c1_counterexample :
    ([0, 1, 2] : List Nat).Perm
      (preMapKeys c1pre (c1ix.accounts.filter (fun i => decide (i < c1keys.length)))) ∧
    ([0, 2, 1] : List Nat).Perm
      (preMapKeys c1pre (c1ix.accounts.filter (fun i => decide (i < c1keys.length)))) ∧
    find_known_instruction (fun _ => [0, 1, 2]) c1tx 5 (some 99) ≠
      find_known_instruction (fun _ => [0, 2, 1]) c1tx 5 (some 99) := by
  refine ⟨by decide, by decide, by decide⟩

/-- C1 (amended): classification is unchanged between two runs whenever the
restricted pre-balance map has at most one entry, because any two valid
iteration orders (permutations of the key set) then coincide; with two or
more entries the output can depend on the iteration order, which Rust's
`HashMap` does not fix across runs. -/
theorem c1_singleton_map_order_agreement (order1 order2 ix_accounts : List Nat)
    (account_keys : List String) (pre post : List TokenBalance) (ity : String)
    (h1 : order1.Perm
      (preMapKeys pre (ix_accounts.filter (fun i => decide (i < account_keys.length)))))
    (h2 : order2.Perm
      (preMapKeys pre (ix_accounts.filter (fun i => decide (i < account_keys.length)))))
    (hcard : (preMapKeys pre
      (ix_accounts.filter (fun i => decide (i < account_keys.length)))).length ≤ 1) :
    find_token_accounts order1 ix_accounts account_keys pre post ity =
      find_token_accounts order2 ix_accounts account_keys pre post ity := by
  have horders : order1 = order2 := by
    rcases hk : preMapKeys pre
        (ix_accounts.filter (fun i => decide (i < account_keys.length))) with _ | ⟨a, rest⟩
    · rw [hk] at h1 h2
      rw [List.perm_nil.mp h1, List.perm_nil.mp h2]
    · rcases rest with _ | ⟨b, t2⟩
      · rw [hk] at h1 h2
        rw [List.perm_singleton.mp h1, List.perm_singleton.mp h2]
      · rw [hk] at hcard
        simp at hcard
  rw [horders]

/-- C1 witness: on a one-entry balance map the amended statement applies
with both valid orders equal to `[0]`. -/
theorem c1_witness :
    find_token_accounts [0] [0] ["a"] c1wpre c1wpost "AutoSwapIn" =
      find_token_accounts [0] [0] ["a"] c1wpre c1wpost "AutoSwapIn" :=
  c1_singleton_map_order_agreement [0] [0] [0] ["a"] c1wpre c1wpost "AutoSwapIn"
    (by decide) (by decide) (by decide)
